import Mathlib

/-!
Verification of the response-normalization layer of the meeting-minutes bot
(`src/app.py`): the `coerce_llm_json` recovery engine, the `/upload` pipeline
around it, the `SYSTEM_PROMPT` template substitution, the Slack interaction
handler, and the spec-described Transcript Formatter.

Python JSON values are embedded as the inductive `JValue` (numbers restricted
to integers — no claim involves a non-integer payload).  Python exceptions are
embedded as the `PyErr` sum; fallible code returns `Except PyErr`.
-/

/-- A parsed JSON value, as produced by Python `json.loads` (dicts kept as
association lists; a lookup takes the last binding, matching dict insertion
semantics where later duplicate keys win). -/
inductive JValue where
  | null : JValue
  | bool (b : Bool) : JValue
  | num (n : Int) : JValue
  | str (s : String) : JValue
  | arr (xs : List JValue) : JValue
  | obj (fields : List (String × JValue)) : JValue

/-- Python exception classes raised by the modelled code paths. -/
inductive PyErr where
  | valueError (msg : String) : PyErr
  | typeError (msg : String) : PyErr
  | keyError (key : String) : PyErr
  | attributeError (msg : String) : PyErr
  | indexError (msg : String) : PyErr
deriving DecidableEq, Repr

/-- The message used when a Python exception is interpolated into an
f-string (`str(e)`); for `KeyError` the key itself stands in for its repr. -/
def PyErr.pyStr : PyErr → String
  | .valueError m => m
  | .typeError m => m
  | .keyError k => k
  | .attributeError m => m
  | .indexError m => m

/-- Dictionary lookup: the value of the LAST binding of `k` (matching a
Python dict built by inserting the pairs in order, later keys overwriting). -/
def dlookup (k : String) : List (String × JValue) → Option JValue
  | [] => none
  | (k2, v) :: rest =>
    match dlookup k rest with
    | some v2 => some v2
    | none => if k2 = k then some v else none

/-- Python `k in d`. -/
def hasKey (k : String) (f : List (String × JValue)) : Bool :=
  (dlookup k f).isSome

/-- Python truthiness of a JSON-decoded value. -/
def truthy : JValue → Bool
  | .null => false
  | .bool b => b
  | .num n => n != 0
  | .str s => !s.isEmpty
  | .arr xs => !xs.isEmpty
  | .obj f => !f.isEmpty

/-- Python `" / ".join(xs)` over a list of values: every element must be a
string, otherwise `TypeError` (as `str.join` raises on the first non-str). -/
def pyJoin (sep : String) : List JValue → Except PyErr String
  | [] => .ok ""
  | v :: rest =>
    match v with
    | JValue.str s =>
      match rest with
      | [] => .ok s
      | _ :: _ =>
        match pyJoin sep rest with
        | .ok t => .ok (s ++ sep ++ t)
        | .error e => .error e
    | _ => .error (.typeError "sequence item: expected str instance")

/-- Python `" / ".join(v[:6])` for a value `v`: lists are sliced then joined;
strings are sliced to their first six characters, which `join` then
intercalates; any other type fails with `TypeError` (either unhashable slice
or not subscriptable). -/
def slice6join : JValue → Except PyErr String
  | .arr xs => pyJoin " / " (xs.take 6)
  | .str s => pyJoin " / " ((s.toList.take 6).map (fun c => JValue.str (String.mk [c])))
  | _ => .error (.typeError "object is not subscriptable")

/-- The value of `ks` after
`try: ks = obj.get("summary", {}).get("key_points", []) or []` —
an `AttributeError` from calling `.get` on a non-dict `summary` is swallowed
(`ks` keeps its initial `[]`), and a falsy retrieved value is replaced by `[]`
by the `or []`. -/
def ks_of (f : List (String × JValue)) : JValue :=
  match dlookup "summary" f with
  | some (.obj sf) =>
    match dlookup "key_points" sf with
    | some v => if truthy v then v else .arr []
    | none => .arr []
  | _ => .arr []

/-- Fixed sentence synthesized by the unwrapped-payload branch when
`key_points` is absent or falsy. -/
def genericKeyPointsSummary : String := "会議の要点を抽出しました。"

/-- Fixed sentence synthesized by the `machine_json`-only branch when
`human_summary` is absent or falsy. -/
def genericMachineJsonSummary : String := "会議サマリーを作成しました。"

/-- The four ordered shape checks of `coerce_llm_json` (source lines 92-114),
without the embedded-JSON rescue: returns `some (machine_json, human_summary)`
on a match, `none` when every check falls through (reaching the rescue /
raise), and an error when the unwrapped-payload branch raises `TypeError`
while joining `key_points`. -/
def coerceNoRescue : JValue → Except PyErr (Option (JValue × JValue))
  | .obj f =>
    match dlookup "machine_json" f, dlookup "human_summary" f with
    | some mj, some hs => .ok (some (mj, hs))
    | _, _ =>
      match dlookup "MACHINE_JSON" f, dlookup "HUMAN_SUMMARY" f with
      | some mj, some hs => .ok (some (mj, hs))
      | _, _ =>
        if hasKey "meeting" f || hasKey "summary" f || hasKey "actions" f ||
            hasKey "next_meeting" f then
          let ks := ks_of f
          if truthy ks then
            match slice6join ks with
            | .ok hs => .ok (some (.obj f, .str hs))
            | .error e => .error e
          else .ok (some (.obj f, .str genericKeyPointsSummary))
        else
          match dlookup "machine_json" f with
          | some mj =>
            let hs :=
              match dlookup "human_summary" f with
              | some h => if truthy h then h else JValue.str genericMachineJsonSummary
              | none => JValue.str genericMachineJsonSummary
            .ok (some (mj, hs))
          | none => .ok none
  | _ => .ok none

/-- The span matched by `re.search(r"\x7b[\s\S]*\x7d", raw_text)`: from the
first open brace through the last close brace of the text, provided the last
close brace lies strictly after the first open brace. -/
def rescueSpan (s : String) : Option String :=
  let cs := s.toList
  match cs.indexOf? '{', cs.reverse.indexOf? '}' with
  | some i, some jr =>
    let j := cs.length - 1 - jr
    if i < j then some (String.mk ((cs.drop i).take (j - i + 1))) else none
  | _, _ => none

/-- Skip JSON whitespace (the four characters Python `json` skips). -/
def skipWs : List Char → List Char
  | [] => []
  | c :: cs => if c = ' ' ∨ c = '\t' ∨ c = '\n' ∨ c = '\r' then skipWs cs else c :: cs

/-- Hex digit value, for string `\u` escapes. -/
def hexVal (c : Char) : Option Nat :=
  if '0' ≤ c ∧ c ≤ '9' then some (c.toNat - 48)
  else if 'a' ≤ c ∧ c ≤ 'f' then some (c.toNat - 87)
  else if 'A' ≤ c ∧ c ≤ 'F' then some (c.toNat - 55)
  else none

/-- Body of a JSON string literal, after the opening quote: strict mode as in
Python `json.loads` (raw control characters rejected, the standard escapes and
`\uXXXX` accepted; an invalid code point decodes to the null character). -/
def jStrGo (acc : List Char) : List Char → Except String (String × List Char)
  | [] => .error "Unterminated string"
  | '"' :: cs => .ok (String.mk acc.reverse, cs)
  | '\\' :: cs =>
    match cs with
    | '"' :: cs2 => jStrGo ('"' :: acc) cs2
    | '\\' :: cs2 => jStrGo ('\\' :: acc) cs2
    | '/' :: cs2 => jStrGo ('/' :: acc) cs2
    | 'b' :: cs2 => jStrGo ('\x08' :: acc) cs2
    | 'f' :: cs2 => jStrGo ('\x0c' :: acc) cs2
    | 'n' :: cs2 => jStrGo ('\n' :: acc) cs2
    | 'r' :: cs2 => jStrGo ('\x0d' :: acc) cs2
    | 't' :: cs2 => jStrGo ('\t' :: acc) cs2
    | 'u' :: h1 :: h2 :: h3 :: h4 :: cs2 =>
      match hexVal h1, hexVal h2, hexVal h3, hexVal h4 with
      | some a, some b, some c, some d =>
        jStrGo (Char.ofNat (((a * 16 + b) * 16 + c) * 16 + d) :: acc) cs2
      | _, _, _, _ => .error "Invalid hex escape"
    | _ => .error "Invalid escape"
  | c :: cs =>
    if c.toNat < 32 then .error "Invalid control character"
    else jStrGo (c :: acc) cs

/-- Maximal run of decimal digits. -/
def digitsSpan : List Char → (List Char × List Char)
  | [] => ([], [])
  | c :: cs =>
    if c.isDigit then
      let (d, r) := digitsSpan cs
      (c :: d, r)
    else ([], c :: cs)

/-- Numeric value of a digit run. -/
def natOfDigits (ds : List Char) : Nat :=
  ds.foldl (fun a c => a * 10 + (c.toNat - 48)) 0

/-- Integer tail of a JSON number: Python grammar `0|[1-9][0-9]*` (a leading
zero matches just `0`, leaving the rest for the caller to reject); a fraction
or exponent marks a non-integer number, outside this embedding. -/
def jNumBody (neg : Bool) (cs : List Char) : Except String (JValue × List Char) :=
  let intPart : Except String (Nat × List Char) :=
    match cs with
    | '0' :: rest => .ok (0, rest)
    | _ =>
      let (ds, r) := digitsSpan cs
      if ds.isEmpty then .error "Expecting value" else .ok (natOfDigits ds, r)
  match intPart with
  | .error e => .error e
  | .ok (n, r) =>
    match r with
    | '.' :: _ => .error "non-integer number (outside this embedding)"
    | 'e' :: _ => .error "non-integer number (outside this embedding)"
    | 'E' :: _ => .error "non-integer number (outside this embedding)"
    | _ => .ok (.num (if neg then -(n : Int) else (n : Int)), r)

/-- A JSON number (integers only; see `jNumBody`). -/
def jNum : List Char → Except String (JValue × List Char)
  | '-' :: cs => jNumBody true cs
  | cs => jNumBody false cs

mutual

/-- One JSON value, recursive-descent with fuel, modelling Python
`json.loads` (error messages abbreviated, without positions). -/
def jParse : Nat → List Char → Except String (JValue × List Char)
  | 0, _ => .error "Nesting exceeded"
  | fuel + 1, cs =>
    match skipWs cs with
    | [] => .error "Expecting value"
    | 'n' :: 'u' :: 'l' :: 'l' :: rest => .ok (.null, rest)
    | 't' :: 'r' :: 'u' :: 'e' :: rest => .ok (.bool true, rest)
    | 'f' :: 'a' :: 'l' :: 's' :: 'e' :: rest => .ok (.bool false, rest)
    | '"' :: rest =>
      match jStrGo [] rest with
      | .ok (s, r) => .ok (.str s, r)
      | .error e => .error e
    | '[' :: rest =>
      match skipWs rest with
      | ']' :: r => .ok (.arr [], r)
      | r0 => jItems fuel [] r0
    | '{' :: rest =>
      match skipWs rest with
      | '}' :: r => .ok (.obj [], r)
      | r0 => jMembers fuel [] r0
    | c :: rest =>
      if c = '-' ∨ c.isDigit then jNum (c :: rest) else .error "Expecting value"

/-- Array elements after the opening bracket (non-empty case). -/
def jItems : Nat → List JValue → List Char → Except String (JValue × List Char)
  | 0, _, _ => .error "Nesting exceeded"
  | fuel + 1, acc, cs =>
    match jParse fuel cs with
    | .error e => .error e
    | .ok (v, r) =>
      match skipWs r with
      | ',' :: r2 => jItems fuel (v :: acc) r2
      | ']' :: r2 => .ok (.arr (v :: acc).reverse, r2)
      | _ => .error "Expecting comma delimiter"

/-- Object members after the opening brace (non-empty case). -/
def jMembers : Nat → List (String × JValue) → List Char →
    Except String (JValue × List Char)
  | 0, _, _ => .error "Nesting exceeded"
  | fuel + 1, acc, cs =>
    match skipWs cs with
    | '"' :: r =>
      match jStrGo [] r with
      | .error e => .error e
      | .ok (k, r1) =>
        match skipWs r1 with
        | ':' :: r2 =>
          match jParse fuel r2 with
          | .error e => .error e
          | .ok (v, r3) =>
            match skipWs r3 with
            | ',' :: r4 => jMembers fuel ((k, v) :: acc) r4
            | '}' :: r4 => .ok (.obj ((k, v) :: acc).reverse, r4)
            | _ => .error "Expecting comma delimiter"
        | _ => .error "Expecting colon delimiter"
    | _ => .error "Expecting property name enclosed in double quotes"

end

/-- Python `json.loads`: parse one value, then require only whitespace to
remain. -/
def json_loads (s : String) : Except String JValue :=
  let cs := s.toList
  match jParse (2 * cs.length + 8) cs with
  | .error e => .error e
  | .ok (v, rest) => if (skipWs rest).isEmpty then .ok v else .error "Extra data"

/-- Model of `coerce_llm_json` (source lines 87-125): the four ordered shape checks,
then the embedded-JSON rescue on `raw_text`, then
`ValueError("missing keys in JSON response")`.  The rescue `try` swallows
every exception arising inside it — a parse failure of the brace span, and
any exception of the recursive `coerce_llm_json(inner)` call (whose own
`raw_text` defaults to `""`, so its rescue finds nothing and its result is
exactly `coerceNoRescue inner` or a swallowed failure). -/
def coerce_llm_json (obj : JValue) (raw_text : String) : Except PyErr (JValue × JValue) :=
  match coerceNoRescue obj with
  | .error e => .error e
  | .ok (some r) => .ok r
  | .ok none =>
    match rescueSpan raw_text with
    | none => .error (.valueError "missing keys in JSON response")
    | some span =>
      match json_loads span with
      | .error _ => .error (.valueError "missing keys in JSON response")
      | .ok inner =>
        match coerceNoRescue inner with
        | .ok (some r) => .ok r
        | _ => .error (.valueError "missing keys in JSON response")

/-- Lines 325-327 of `/upload`: `parsed = json.loads(args_text)` followed by
`coerce_llm_json(parsed, args_text)`.  A `json.JSONDecodeError` is a
`ValueError` in Python, so a parse failure surfaces as `PyErr.valueError`. -/
def coerceStage (args_text : String) : Except PyErr (JValue × JValue) :=
  match json_loads args_text with
  | .error msg => .error (.valueError msg)
  | .ok parsed => coerce_llm_json parsed args_text

/-- The `SYSTEM_PROMPT` template (source lines 53-86), verbatim: a
triple-quoted string beginning with a newline and ending with a newline
after the `現在日時: \x7bNOW_ISO\x7d。` line.  Its literal JSON example
contains unescaped braces. -/
def SYSTEM_PROMPT : String := String.intercalate "\n" [
  "",
  "あなたは「会議議事録とアクション抽出」の専門家です。発話ログだけを根拠に、推測せず、",
  "1) 要約、2) 決定事項、3) ToDo（担当者・期限YYYY-MM-DD・優先度・根拠タイムスタンプ）、4) parking_lot を抽出します。",
  "日付は必ず正規化（例: 来週金曜 → YYYY-MM-DD）。不確定表現のものはToDoではなくparking_lotへ。",
  "返答は **次のJSONオブジェクト1個のみ** で返してください（文章やコードブロックは不要）:",
  "",
  "\x7b",
  "  \"machine_json\": \x7b",
  "    \"meeting\": \x7b \"title\": string, \"datetime\": string, \"participants\": [\x7b\"name\":string,\"email\":string|null\x7d] \x7d,",
  "    \"summary\": \x7b",
  "      \"context\": string,",
  "      \"key_points\": [string],",
  "      \"decisions\": [\x7b\"text\":string,\"evidence_ts\":string|null\x7d],",
  "      \"risks\": [string],",
  "      \"parking_lot\": [string]",
  "    \x7d,",
  "    \"actions\": [\x7b",
  "      \"task\": string,",
  "      \"owner\": \x7b\"name\": string, \"email\": string|null\x7d,",
  "      \"due_date\": string|null,",
  "      \"priority\": \"low\"|\"medium\"|\"high\"|null,",
  "      \"evidence_ts\": string|null,",
  "      \"confidence\": number|null,",
  "      \"notes\": string|null",
  "    \x7d],",
  "    \"next_meeting\": \x7b",
  "      \"suggested_datetime\": string|null,",
  "      \"suggested_agenda\": [string]",
  "    \x7d",
  "  \x7d,",
  "  \"human_summary\": string",
  "\x7d",
  "現在日時: \x7bNOW_ISO\x7d。",
  ""]

/-- Field-name scan of CPython `str.format`: the name runs up to `:`, `!`
or the closing brace; an open brace inside a field name is an error, as is
end of string. -/
def fieldName (acc : List Char) : List Char → Except PyErr (String × Char × List Char)
  | [] => .error (.valueError "unmatched open brace in format string")
  | c :: cs =>
    if c = ':' ∨ c = '!' ∨ c = '}' then .ok (String.mk acc.reverse, c, cs)
    else if c = '{' then .error (.valueError "unexpected open brace in field name")
    else fieldName (c :: acc) cs

/-- Format-spec scan of CPython `str.format`: runs to the brace closing the
replacement field, tracking nested brace depth. -/
def specScan (acc : List Char) (depth : Nat) : List Char → Except PyErr (List Char × List Char)
  | [] => .error (.valueError "unmatched open brace in format string")
  | c :: cs =>
    if c = '{' then specScan (c :: acc) (depth + 1) cs
    else if c = '}' then
      match depth with
      | 0 => .ok (acc.reverse, cs)
      | d + 1 => specScan (c :: acc) d cs
    else specScan (c :: acc) depth cs

/-- CPython `template.format(key=val)` with a single keyword argument:
doubled braces are literals, each replacement field is parsed in full
(name, optional conversion, format spec with nesting) before its name is
looked up; a name other than `key` raises `KeyError` with that name.
Application of a non-empty format spec to a matched field is not modelled
(no claim exercises it: the only matching field of the program template,
`NOW_ISO`, has an empty spec). -/
def pyFormatGo (key val : String) : Nat → List Char → List Char → Except PyErr String
  | 0, _, _ => .error (.valueError "format fuel exhausted")
  | fuel + 1, acc, cs =>
    match cs with
    | [] => .ok (String.mk acc.reverse)
    | '}' :: '}' :: cs2 => pyFormatGo key val fuel ('}' :: acc) cs2
    | '}' :: _ => .error (.valueError "single close brace encountered in format string")
    | '{' :: '{' :: cs2 => pyFormatGo key val fuel ('{' :: acc) cs2
    | '{' :: cs2 =>
      match fieldName [] cs2 with
      | .error e => .error e
      | .ok (name, term, rest) =>
        let specRest : Except PyErr (List Char × List Char) :=
          if term = '}' then .ok ([], rest)
          else if term = ':' then specScan [] 0 rest
          else
            match rest with
            | _ :: ':' :: r => specScan [] 0 r
            | _ :: '}' :: r => .ok ([], r)
            | _ => .error (.valueError "expected colon or close brace after conversion")
        match specRest with
        | .error e => .error e
        | .ok (spec, rest2) =>
          if name = key then
            if spec.isEmpty then pyFormatGo key val fuel (val.toList.reverse ++ acc) rest2
            else .error (.valueError "nonempty format spec not modelled")
          else .error (.keyError name)
    | c :: cs2 => pyFormatGo key val fuel (c :: acc) cs2

/-- Model of `template.format(key=val)`. -/
def pyFormat (template key val : String) : Except PyErr String :=
  pyFormatGo key val (template.length + 1) [] template.toList

/-- The failure payload built by `err_json` (source lines 26-30); the
correlation id, a fresh uuid4, is the one nondeterministic input and is
passed in as a parameter. -/
structure FailRecord where
  ok : Bool
  error : String
  detail : String
  correlation_id : String
deriving DecidableEq, Repr

/-- Outcome of the modelled part of `/upload`: an error JSON response with
its HTTP status, or the success payload
`(ok: True, slack_ts, machine_json, human_summary)`. -/
inductive UploadResult where
  | failure (status : Nat) (payload : FailRecord)
  | success (slack_ts : String) (machine_json human_summary : JValue)

/-- Calls made to the messaging sink. -/
inductive Effect where
  | slackPost (channel : String) (text : String) (blocks : JValue)
  | slackUpdate (channel ts : JValue) (text : String) (blocks : JValue)

/-- Header text of the draft (line 336): the fixed prefix followed by the
title, or 会議 when the title is absent or empty. -/
def draft_header (title : Option String) : String :=
  "【議事録ドラフト】" ++
    (match title with
     | some t => if t.isEmpty then "会議" else t
     | none => "会議")

/-- The Slack blocks of the draft post (lines 337-344): header, a section
carrying `human_summary` verbatim as mrkdwn text, and one confirm button
with action id `confirm_minutes` and value `confirm`. -/
def draft_blocks (title : Option String) (human_summary : JValue) : JValue :=
  .arr [
    .obj [("type", .str "header"),
          ("text", .obj [("type", .str "plain_text"),
                         ("text", .str (draft_header title))])],
    .obj [("type", .str "section"),
          ("text", .obj [("type", .str "mrkdwn"), ("text", human_summary)])],
    .obj [("type", .str "actions"),
          ("elements", .arr [
            .obj [("type", .str "button"),
                  ("text", .obj [("type", .str "plain_text"),
                                 ("text", .str "✅ 確定して共有")]),
                  ("style", .str "primary"),
                  ("value", .str "confirm"),
                  ("action_id", .str "confirm_minutes")]])]]

/-- Detail string of the `parse failed` error response (line 330). -/
def parseFailedDetail (e : PyErr) : String :=
  "LLM出力の解析に失敗しました: " ++ e.pyStr

/-- Lines 324-351 of `/upload`, from the tool-call argument text onward:
parse, coerce, and either return the error payload (no sink call) or post
the draft once and return the success payload.  `ts` is the message handle
the sink would return for the post. -/
def uploadFromArgs (cid channel : String) (title : Option String) (ts : String)
    (args_text : String) : UploadResult × List Effect :=
  match coerceStage args_text with
  | .error e => (.failure 500 ⟨false, "parse failed", parseFailedDetail e, cid⟩, [])
  | .ok (mj, hs) =>
    (.success ts mj hs,
     [Effect.slackPost channel "議事録ドラフト" (draft_blocks title hs)])

/-- Lines 217-351 of `/upload` (the extraction stage and everything after
it): the first statement of the `try` block formats `SYSTEM_PROMPT` with
`NOW_ISO`; an exception there lands in the `except` (lines 329-331), so the
extraction request, coercion and posting are all skipped.  `args_text`
stands for the tool-call arguments the extraction service would return. -/
def extract_and_post (cid channel : String) (title : Option String)
    (now ts args_text : String) : UploadResult × List Effect :=
  match pyFormat SYSTEM_PROMPT "NOW_ISO" now with
  | .error e => (.failure 500 ⟨false, "parse failed", parseFailedDetail e, cid⟩, [])
  | .ok _sys => uploadFromArgs cid channel title ts args_text

/-- Python `v.get(k, default)`: `AttributeError` when `v` is not a dict. -/
def pyGet (v : JValue) (k : String) (default : JValue) : Except PyErr JValue :=
  match v with
  | .obj f => .ok ((dlookup k f).getD default)
  | _ => .error (.attributeError "object has no attribute get")

/-- Python `v[0]` on the possibly-defaulted actions value: head of a list,
first character of a string, `KeyError` on a dict, `TypeError` otherwise. -/
def pyIndex0 : JValue → Except PyErr JValue
  | .arr (x :: _) => .ok x
  | .arr [] => .error (.indexError "list index out of range")
  | .str s =>
    match s.toList with
    | c :: _ => .ok (.str (String.mk [c]))
    | [] => .error (.indexError "string index out of range")
  | .obj _ => .error (.keyError "0")
  | _ => .error (.typeError "object is not subscriptable")

/-- The handler's JSON success response `(ok: True)`. -/
def okTrue : JValue := .obj [("ok", .bool true)]

/-- The blocks written by the confirmation update (lines 365-369). -/
def confirmedBlocks : JValue :=
  .arr [.obj [("type", .str "section"),
              ("text", .obj [("type", .str "mrkdwn"),
                             ("text", .str "*議事録を確定しました。* チーム共有を開始します。")])]]

/-- The `/slack/interact` handler body (source lines 356-370), from the
decoded interaction payload: extract
`(payload.get("actions") or [(,)])[0].get("action_id")`,
`payload.get("channel", (,)).get("id")` and
`payload.get("message", (,)).get("ts")`; call `chat_update` only when the
action id equals `confirm_minutes` and channel and ts are truthy; always
answer `(ok: True)`.  An exception while extracting (malformed payload)
propagates to the app-wide 500 handler and is the `.error` case here. -/
def slack_interact (payload : JValue) : Except PyErr (JValue × List Effect) :=
  match pyGet payload "actions" .null with
  | .error e => .error e
  | .ok actionsRaw =>
    let actionsV := if truthy actionsRaw then actionsRaw else .arr [.obj []]
    match pyIndex0 actionsV with
    | .error e => .error e
    | .ok elem0 =>
      match pyGet elem0 "action_id" .null with
      | .error e => .error e
      | .ok action_id =>
        match pyGet payload "channel" (.obj []) with
        | .error e => .error e
        | .ok chV =>
          match pyGet chV "id" .null with
          | .error e => .error e
          | .ok channel =>
            match pyGet payload "message" (.obj []) with
            | .error e => .error e
            | .ok msgV =>
              match pyGet msgV "ts" .null with
              | .error e => .error e
              | .ok message_ts =>
                let isConfirm : Bool :=
                  match action_id with
                  | .str s => s = "confirm_minutes"
                  | _ => false
                if isConfirm && truthy channel && truthy message_ts then
                  .ok (okTrue,
                    [Effect.slackUpdate channel message_ts "議事録を確定しました。" confirmedBlocks])
                else .ok (okTrue, [])

/-- Modelled from the spec: the Transcript Formatter of §4.1 is code of this
repository that is not under `src/` (src/app.py consumes only the plain
transcript text of the transcription response), so its segment type is taken
from the spec: a numeric start offset in seconds (already truncated to an
integer) and the segment text. -/
structure TranscriptSegment where
  start_offset : Nat
  text : String

/-- Two-digit zero-padded rendering of minutes or seconds. -/
def pad2 (n : Nat) : String :=
  if n < 10 then "0" ++ toString n else toString n

/-- Modelled from the spec: §4.1 timestamp rendering — the start offset
becomes an `H:MM:SS` duration string, padded with one leading zero when the
rendered string is shorter than 8 characters, giving `HH:MM:SS`. -/
def fmt_hms (s : Nat) : String :=
  let r := toString (s / 3600) ++ ":" ++ pad2 ((s % 3600) / 60) ++ ":" ++ pad2 (s % 60)
  if r.length < 8 then "0" ++ r else r

/-- Modelled from the spec: §4.1 line production — one line
`[HH:MM:SS] <text>` per segment whose trimmed text is non-empty, in the
original order. -/
def transcript_lines : List TranscriptSegment → List String
  | [] => []
  | sg :: rest =>
    let t := sg.text.trim
    if t.isEmpty then transcript_lines rest
    else ("[" ++ fmt_hms sg.start_offset ++ "] " ++ t) :: transcript_lines rest

/-- Modelled from the spec: §4.1 — joined transcript, or the fallback plain
text when no segments are present. -/
def format_transcript (segs : List TranscriptSegment) (fallback : String) : String :=
  if segs.isEmpty then fallback
  else String.intercalate "\n" (transcript_lines segs)

theorem coerce_llm_json_of_some (v : JValue) (raw : String) (r : JValue × JValue)
    (h : coerceNoRescue v = .ok (some r)) : coerce_llm_json v raw = .ok r := by
  unfold coerce_llm_json
  rw [h]

/-- Plain string join with a separator, the reference form of Python
`sep.join` on a list of strings. -/
def joinSep (sep : String) : List String → String
  | [] => ""
  | s :: rest =>
    match rest with
    | [] => s
    | _ :: _ => s ++ sep ++ joinSep sep rest

theorem pyJoin_strs (sep : String) (ss : List String) :
    pyJoin sep (ss.map JValue.str) = .ok (joinSep sep ss) := by
  induction ss with
  | nil => rfl
  | cons s rest ih =>
    cases rest with
    | nil => rfl
    | cons s2 r2 =>
      simp only [List.map] at ih ⊢
      show (match pyJoin sep (JValue.str s2 :: List.map JValue.str r2) with
            | .ok t => Except.ok (s ++ sep ++ t)
            | .error e => Except.error e) = _
      rw [ih]
      rfl

/-- Claim C2: a mapping holding both a `machine_json` and a `human_summary`
key is returned as exactly those two values, unchanged, by the first shape
check; in particular wrapping any value in the canonical
`(machine_json, human_summary)` wrapper and decoding it through the engine
returns the identical value. -/
theorem coerce_canonicalWrapperReturnsBoth (f : List (String × JValue))
    (mj hs : JValue) (raw : String)
    (h1 : dlookup "machine_json" f = some mj)
    (h2 : dlookup "human_summary" f = some hs) :
    coerce_llm_json (.obj f) raw = .ok (mj, hs) := by
  apply coerce_llm_json_of_some
  unfold coerceNoRescue
  simp only [h1, h2]

/-- Witness for C2, including the round-trip instance: the canonical wrapper
around a sample `machine_json` decodes to the identical pair. -/
theorem coerce_canonicalWrapperReturnsBoth_witness :
    dlookup "machine_json"
        [("machine_json", JValue.obj [("actions", JValue.arr [])]),
         ("human_summary", JValue.str "S")] = some (JValue.obj [("actions", JValue.arr [])])
    ∧ dlookup "human_summary"
        [("machine_json", JValue.obj [("actions", JValue.arr [])]),
         ("human_summary", JValue.str "S")] = some (JValue.str "S")
    ∧ coerce_llm_json
        (.obj [("machine_json", JValue.obj [("actions", JValue.arr [])]),
               ("human_summary", JValue.str "S")]) ""
        = .ok (JValue.obj [("actions", JValue.arr [])], JValue.str "S") :=
  ⟨rfl, rfl,
   coerce_canonicalWrapperReturnsBoth
     [("machine_json", JValue.obj [("actions", JValue.arr [])]),
      ("human_summary", JValue.str "S")]
     (JValue.obj [("actions", JValue.arr [])]) (JValue.str "S") "" rfl rfl⟩

/-- Claim C4, counterexample: tool-call argument text that is not JSON but
contains an embedded JSON object.  The pipeline fails immediately with the
`parse failed` envelope, performing no sink call — even though the engine's
own embedded-JSON rescue succeeds on the very same raw text — so a parse
failure does NOT fall through to the rescue step. -/
theorem upload_parseFailureNoRescue_cex :
    (json_loads "oops \x7b\"summary\": \x7b\"key_points\": [\"A\",\"B\"]\x7d\x7d end"
      = .error "Expecting value")
    ∧ uploadFromArgs "cid0" "C0" none "111.222"
        "oops \x7b\"summary\": \x7b\"key_points\": [\"A\",\"B\"]\x7d\x7d end"
      = (.failure 500 ⟨false, "parse failed",
           "LLM出力の解析に失敗しました: Expecting value", "cid0"⟩, [])
    ∧ coerce_llm_json (.str "")
        "oops \x7b\"summary\": \x7b\"key_points\": [\"A\",\"B\"]\x7d\x7d end"
      = .ok (.obj [("summary", .obj [("key_points", .arr [.str "A", .str "B"])])],
             .str "A / B") :=
  ⟨rfl, rfl, rfl⟩

/-- Claim C4, amended: when the tool-call argument payload fails to parse as
JSON, `/upload` fails immediately with the `parse failed` envelope and makes
no sink call; the embedded-JSON rescue is reached only inside
`coerce_llm_json`, i.e. only when top-level parsing succeeded. -/
theorem upload_parseFailureFailsImmediately (cid channel ts args : String)
    (title : Option String) (m : String)
    (h : json_loads args = .error m) :
    uploadFromArgs cid channel title ts args =
      (.failure 500 ⟨false, "parse failed",
          "LLM出力の解析に失敗しました: " ++ m, cid⟩, []) := by
  unfold uploadFromArgs coerceStage
  simp only [h, parseFailedDetail, PyErr.pyStr]

/-- Witness for the amended C4. -/
theorem upload_parseFailureFailsImmediately_witness :
    json_loads "not json at all" = .error "Expecting value"
    ∧ uploadFromArgs "cid1" "C1" none "1.2" "not json at all" =
        (.failure 500 ⟨false, "parse failed",
            "LLM出力の解析に失敗しました: " ++ "Expecting value", "cid1"⟩, []) :=
  ⟨rfl, upload_parseFailureFailsImmediately "cid1" "C1" "1.2" "not json at all" none
          "Expecting value" rfl⟩

/-- Claim C5, counterexample: the exhausted-coercion failure is the constant
`ValueError("missing keys in JSON response")` — identical for two different
raw texts — so it carries no snippet (no bounded prefix) of the original raw
text, contrary to the claimed `raw_snippet`. -/
theorem coerce_failureCarriesNoSnippet_cex :
    coerce_llm_json (.str "x") "not json at all AAAA AAAA AAAA AAAA"
      = .error (.valueError "missing keys in JSON response")
    ∧ coerce_llm_json (.str "x") "completely different raw text BBBB"
      = .error (.valueError "missing keys in JSON response")
    ∧ "not json at all AAAA AAAA AAAA AAAA" ≠ "completely different raw text BBBB" :=
  ⟨rfl, rfl, by decide⟩

/-- Claim C5, amended: when no shape check matches and the raw text holds no
parseable embedded JSON object, coercion fails with
`ValueError("missing keys in JSON response")`; the failure carries the reason
only — no snippet of the raw text is attached. -/
theorem coerce_exhaustedMissingKeys (v : JValue) (raw : String)
    (h1 : coerceNoRescue v = .ok none)
    (h2 : rescueSpan raw = none ∨
          ∃ sp, rescueSpan raw = some sp ∧ ∃ m, json_loads sp = .error m) :
    coerce_llm_json v raw = .error (.valueError "missing keys in JSON response") := by
  unfold coerce_llm_json
  rcases h2 with h2 | ⟨sp, hsp, m, hm⟩
  · simp only [h1, h2]
  · simp only [h1, hsp, hm]

/-- Witness for the amended C5. -/
theorem coerce_exhaustedMissingKeys_witness :
    coerceNoRescue (.str "x") = .ok none
    ∧ rescueSpan "not json at all" = none
    ∧ coerce_llm_json (.str "x") "not json at all"
        = .error (.valueError "missing keys in JSON response") :=
  ⟨rfl, rfl, coerce_exhaustedMissingKeys (.str "x") "not json at all" rfl (.inl rfl)⟩

/-- Claim C7: whenever the parse-and-coerce stage fails, `/upload` returns
the structured failure record — `ok: false`, the error kind `parse failed`,
a detail, and the correlation id — and performs no sink call (the draft post
is never reached). -/
theorem upload_coercionFailureNoPost (cid channel ts args : String)
    (title : Option String) (e : PyErr)
    (h : coerceStage args = .error e) :
    uploadFromArgs cid channel title ts args =
      (.failure 500 ⟨false, "parse failed", parseFailedDetail e, cid⟩, []) := by
  unfold uploadFromArgs
  rw [h]

/-- Witness for C7: end-to-end scenario D, the keyless non-JSON string. -/
theorem upload_coercionFailureNoPost_witness :
    coerceStage "not json at all" = .error (.valueError "Expecting value")
    ∧ uploadFromArgs "cid2" "C2" none "9.9" "not json at all" =
        (.failure 500 ⟨false, "parse failed",
            parseFailedDetail (.valueError "Expecting value"), "cid2"⟩, []) :=
  ⟨rfl, upload_coercionFailureNoPost "cid2" "C2" "9.9" "not json at all" none
          (.valueError "Expecting value") rfl⟩

set_option maxRecDepth 100000 in
/-- Claim C1: substituting any timestamp into the system-prompt template
raises — the JSON example's opening brace starts a replacement field whose
parsed name is the literal text up to the first colon, which is not the
`NOW_ISO` keyword, so `format` raises `KeyError` for every `now` value; as a
consequence the extraction stage's `except` handler fires on every request
and the pipeline always returns the `parse failed` envelope with no sink
call, never reaching coercion, posting, or the success path, regardless of
what the extraction service would have answered. -/
theorem upload_systemPromptFormatAlwaysRaises
    (cid channel now ts args_text : String) (title : Option String) :
    pyFormat SYSTEM_PROMPT "NOW_ISO" now = .error (.keyError "\n  \"machine_json\"")
    ∧ extract_and_post cid channel title now ts args_text =
        (.failure 500 ⟨false, "parse failed",
            "LLM出力の解析に失敗しました: " ++ "\n  \"machine_json\"", cid⟩, []) := by
  constructor
  · rfl
  · rfl

/-- Claim C10: the Transcript Formatter emits exactly one
`[HH:MM:SS] <text>` line per segment with non-empty trimmed text, in the
original order, with the zero-padded truncated offset; the line count equals
the count of such segments; offset 5 renders as `00:00:05` and offset 3661
as `01:01:01`. -/
theorem transcriptFormatter_linesSpec :
    (∀ segs : List TranscriptSegment,
       transcript_lines segs =
         (segs.filter (fun sg => !sg.text.trim.isEmpty)).map
           (fun sg => "[" ++ fmt_hms sg.start_offset ++ "] " ++ sg.text.trim))
    ∧ (∀ segs : List TranscriptSegment,
       (transcript_lines segs).length =
         (segs.filter (fun sg => !sg.text.trim.isEmpty)).length)
    ∧ fmt_hms 5 = "00:00:05" ∧ fmt_hms 3661 = "01:01:01" := by
  have hmain : ∀ segs : List TranscriptSegment,
      transcript_lines segs =
        (segs.filter (fun sg => !sg.text.trim.isEmpty)).map
          (fun sg => "[" ++ fmt_hms sg.start_offset ++ "] " ++ sg.text.trim) := by
    intro segs
    induction segs with
    | nil => rfl
    | cons sg rest ih =>
      simp only [transcript_lines, List.filter_cons]
      cases h : sg.text.trim.isEmpty with
      | true => simpa [h] using ih
      | false => simpa [h] using ih
  refine ⟨hmain, fun segs => ?_, rfl, rfl⟩
  rw [hmain segs, List.length_map]

/-- Claim C3, counterexample: an unwrapped mapping whose
`summary.key_points` holds non-string entries makes the join raise
`TypeError`, so the unwrapped-payload step CAN fail and coercion does not
succeed on every such mapping. -/
theorem coerce_unwrappedJoinCanFail_cex :
    coerce_llm_json
        (.obj [("summary", .obj [("key_points", .arr [.num 1, .num 2])])]) ""
      = .error (.typeError "sequence item: expected str instance") := rfl

/-- Claim C3, amended: for a mapping without the wrapper keys (in either
casing) holding a recognized inner key, when the retrieved `key_points`
value is a list of strings the step succeeds with the whole mapping as
`machine_json` and `human_summary` the first six entries joined by " / "
(the fixed generic sentence when the list is empty, absent, or falsy); when
`key_points` holds a non-string entry the join raises `TypeError` instead
(see the counterexample). -/
theorem coerce_unwrappedPayloadSynthesis (f : List (String × JValue))
    (raw : String) (ss : List String)
    (hm : dlookup "machine_json" f = none)
    (hh : dlookup "human_summary" f = none)
    (hu : dlookup "MACHINE_JSON" f = none ∨ dlookup "HUMAN_SUMMARY" f = none)
    (hl : (hasKey "meeting" f || hasKey "summary" f || hasKey "actions" f ||
           hasKey "next_meeting" f) = true)
    (hks : ks_of f = .arr (ss.map JValue.str)) :
    coerce_llm_json (.obj f) raw =
      .ok (.obj f, .str (if ss.isEmpty then genericKeyPointsSummary
                         else joinSep " / " (ss.take 6))) := by
  apply coerce_llm_json_of_some
  unfold coerceNoRescue
  have hbody :
      (if (hasKey "meeting" f || hasKey "summary" f || hasKey "actions" f ||
            hasKey "next_meeting" f) = true then
         if truthy (ks_of f) = true then
           match slice6join (ks_of f) with
           | Except.ok hs => Except.ok (some (JValue.obj f, JValue.str hs))
           | Except.error e => Except.error e
         else Except.ok (some (JValue.obj f, JValue.str genericKeyPointsSummary))
       else Except.ok none)
      = Except.ok (some (JValue.obj f,
          JValue.str (if ss.isEmpty then genericKeyPointsSummary
                      else joinSep " / " (ss.take 6)))) := by
    rw [if_pos hl, hks]
    cases ss with
    | nil => rfl
    | cons s ss2 =>
      have htr : truthy (.arr ((s :: ss2).map JValue.str)) = true := rfl
      have hj : slice6join (.arr ((s :: ss2).map JValue.str))
          = .ok (joinSep " / " ((s :: ss2).take 6)) := by
        show pyJoin " / " (((s :: ss2).map JValue.str).take 6) = _
        rw [← List.map_take, pyJoin_strs]
      rw [htr, if_pos rfl, hj]
      rfl
  simp only [hm, hh]
  rcases hu with hu | hu
  · simp only [hu]
    exact hbody
  · cases hM : dlookup "MACHINE_JSON" f with
    | none => simp only [hM]; exact hbody
    | some w => simp only [hM, hu]; exact hbody

/-- Witness for the amended C3: end-to-end scenario B, the unwrapped inner
object with `key_points = ["A","B"]` giving `human_summary = "A / B"`. -/
theorem coerce_unwrappedPayloadSynthesis_witness :
    dlookup "machine_json" [("summary", JValue.obj [("key_points", JValue.arr [.str "A", .str "B"])])] = none
    ∧ ks_of [("summary", JValue.obj [("key_points", JValue.arr [.str "A", .str "B"])])]
        = .arr ([ "A", "B" ].map JValue.str)
    ∧ coerce_llm_json (.obj [("summary", JValue.obj [("key_points", JValue.arr [.str "A", .str "B"])])]) ""
        = .ok (.obj [("summary", JValue.obj [("key_points", JValue.arr [.str "A", .str "B"])])],
               .str "A / B") :=
  ⟨rfl, rfl, by
    have h := coerce_unwrappedPayloadSynthesis
      [("summary", JValue.obj [("key_points", JValue.arr [.str "A", .str "B"])])]
      "" ["A", "B"] rfl rfl (.inl rfl) rfl rfl
    exact h⟩

/-- Claim C9, counterexample: a mapping with a `machine_json` key, no
`human_summary` key and no recognized inner key is NOT always answered from
`machine_json` — when the upper-case wrapper pair is also present, the
case-variant check fires first and returns those values instead of the value
under `machine_json` and the fixed sentence. -/
theorem coerce_machineJsonOnly_cex :
    coerce_llm_json
        (.obj [("machine_json", .num 1), ("MACHINE_JSON", .num 2),
               ("HUMAN_SUMMARY", .str "s")]) ""
      = .ok (.num 2, .str "s")
    ∧ dlookup "machine_json"
        [("machine_json", JValue.num 1), ("MACHINE_JSON", .num 2),
         ("HUMAN_SUMMARY", .str "s")] = some (.num 1)
    ∧ JValue.num 2 ≠ JValue.num 1
    ∧ JValue.str "s" ≠ JValue.str genericMachineJsonSummary := by
  refine ⟨rfl, rfl, ?_, ?_⟩ <;> simp [genericMachineJsonSummary]

/-- Claim C9, amended: a mapping with a `machine_json` key, no
`human_summary` key, no recognized inner key, and not both upper-case
wrapper keys, is accepted by the fourth check: the value under
`machine_json` is returned as `machine_json` and the fixed generic sentence
as `human_summary`. -/
theorem coerce_machineJsonOnlyBranch (f : List (String × JValue))
    (raw : String) (mj : JValue)
    (hm : dlookup "machine_json" f = some mj)
    (hh : dlookup "human_summary" f = none)
    (hu : dlookup "MACHINE_JSON" f = none ∨ dlookup "HUMAN_SUMMARY" f = none)
    (hl : (hasKey "meeting" f || hasKey "summary" f || hasKey "actions" f ||
           hasKey "next_meeting" f) = false) :
    coerce_llm_json (.obj f) raw = .ok (mj, .str genericMachineJsonSummary) := by
  apply coerce_llm_json_of_some
  unfold coerceNoRescue
  have hbody :
      (if (hasKey "meeting" f || hasKey "summary" f || hasKey "actions" f ||
            hasKey "next_meeting" f) = true then
         if truthy (ks_of f) = true then
           match slice6join (ks_of f) with
           | Except.ok hs => Except.ok (some (JValue.obj f, JValue.str hs))
           | Except.error e => Except.error e
         else Except.ok (some (JValue.obj f, JValue.str genericKeyPointsSummary))
       else Except.ok (some (mj, JValue.str genericMachineJsonSummary)))
      = Except.ok (some (mj, JValue.str genericMachineJsonSummary)) := by
    rw [if_neg (by rw [hl]; exact Bool.false_ne_true)]
  simp only [hm, hh]
  rcases hu with hu | hu
  · simp only [hu]
    exact hbody
  · cases hM : dlookup "MACHINE_JSON" f with
    | none => simp only [hM]; exact hbody
    | some w => simp only [hM, hu]; exact hbody

/-- Witness for the amended C9. -/
theorem coerce_machineJsonOnlyBranch_witness :
    dlookup "machine_json" [("machine_json", JValue.num 7)] = some (.num 7)
    ∧ coerce_llm_json (.obj [("machine_json", JValue.num 7)]) ""
        = .ok (.num 7, .str genericMachineJsonSummary) :=
  ⟨rfl, coerce_machineJsonOnlyBranch [("machine_json", JValue.num 7)] ""
          (.num 7) rfl rfl (.inl rfl) rfl⟩

/-- Lookup of a direct member value inside a JSON value (none for
non-objects). -/
def objLookup (v : JValue) (k : String) : Option JValue :=
  match v with
  | .obj f => dlookup k f
  | _ => none

/-- Provenance of a returned `machine_json`: the response value itself or
one of its direct member values. -/
def memberVal (mj v : JValue) : Prop :=
  mj = v ∨ ∃ k, objLookup v k = some mj

/-- Provenance of a returned `human_summary`: a direct member value of the
response, one of the two fixed sentences, or the join the unwrapped-payload
branch computes from the response's own `summary.key_points`. -/
def hsFromValue (v hs : JValue) : Prop :=
  (∃ k, objLookup v k = some hs) ∨ hs = .str genericKeyPointsSummary ∨
  hs = .str genericMachineJsonSummary ∨
  (∃ f s, v = JValue.obj f ∧ slice6join (ks_of f) = .ok s ∧ hs = .str s)

/-- Every successful shape check returns a `machine_json` taken from the
response value and a `human_summary` that is stored in it, fixed, or joined
from its own key points. -/
theorem coerceNoRescue_provenance (v mj hs : JValue)
    (h : coerceNoRescue v = .ok (some (mj, hs))) :
    memberVal mj v ∧ hsFromValue v hs := by
  cases v with
  | obj f =>
    unfold coerceNoRescue at h
    split at h
    · rename_i f2 hf2
      injection hf2 with hf2
      subst hf2
      split at h
      · rename_i a b h1 h2
        obtain ⟨rfl, rfl⟩ : a = mj ∧ b = hs := by simpa using h
        exact ⟨.inr ⟨"machine_json", by simpa [objLookup] using h1⟩,
               .inl ⟨"human_summary", by simpa [objLookup] using h2⟩⟩
      · rename_i hnot1
        split at h
        · rename_i a b h3 h4
          obtain ⟨rfl, rfl⟩ : a = mj ∧ b = hs := by simpa using h
          exact ⟨.inr ⟨"MACHINE_JSON", by simpa [objLookup] using h3⟩,
                 .inl ⟨"HUMAN_SUMMARY", by simpa [objLookup] using h4⟩⟩
        · rename_i hnot2
          split at h
          · rename_i hcond
            dsimp only at h
            split at h
            · rename_i htr
              split at h
              · rename_i s hsl
                obtain ⟨rfl, rfl⟩ : JValue.obj f = mj ∧ JValue.str s = hs := by
                  simpa using h
                exact ⟨.inl rfl, .inr (.inr (.inr ⟨f, s, rfl, hsl, rfl⟩))⟩
              · rename_i e hsl
                simp at h
            · rename_i htr
              obtain ⟨rfl, rfl⟩ :
                  JValue.obj f = mj ∧ JValue.str genericKeyPointsSummary = hs := by
                simpa using h
              exact ⟨.inl rfl, .inr (.inl rfl)⟩
          · rename_i hcond
            split at h
            · rename_i a h5
              obtain ⟨rfl, hhs⟩ : a = mj ∧ _ = hs := by simpa using h
              refine ⟨.inr ⟨"machine_json", by simpa [objLookup] using h5⟩, ?_⟩
              rcases h6 : dlookup "human_summary" f with _ | hv
              · rw [h6] at hhs
                exact .inr (.inr (.inl hhs.symm))
              · rw [h6] at hhs
                dsimp only at hhs
                rcases htr2 : truthy hv with _ | _
                · rw [htr2] at hhs
                  simp at hhs
                  exact .inr (.inr (.inl hhs.symm))
                · rw [htr2] at hhs
                  simp at hhs
                  refine .inl ⟨"human_summary", ?_⟩
                  show dlookup "human_summary" f = some hs
                  rw [h6, hhs]
            · rename_i h5
              simp at h
    · rename_i hnot
      exact absurd rfl (hnot f)
  | null => simp [coerceNoRescue] at h
  | bool b => simp [coerceNoRescue] at h
  | num n => simp [coerceNoRescue] at h
  | str s => simp [coerceNoRescue] at h
  | arr xs => simp [coerceNoRescue] at h

/-- Claim C6, amended: whenever coercion succeeds, the returned
`machine_json` is a value present in the (possibly rescued and re-parsed)
service response itself — never fabricated — and the returned
`human_summary` is either a value of that response, one of the two fixed
sentences, or the join of the response's own `summary.key_points`; however
synthesis of `human_summary` is NOT limited to responses lacking a
`human_summary` key (see the counterexample). -/
theorem coerce_machineJsonProvenance (v : JValue) (raw : String) (mj hs : JValue)
    (h : coerce_llm_json v raw = .ok (mj, hs)) :
    (memberVal mj v ∧ hsFromValue v hs) ∨
    (∃ span inner, rescueSpan raw = some span ∧ json_loads span = .ok inner ∧
       memberVal mj inner ∧ hsFromValue inner hs) := by
  unfold coerce_llm_json at h
  cases hc : coerceNoRescue v with
  | error e =>
    simp only [hc] at h
    exact Except.noConfusion h
  | ok o =>
    cases o with
    | some r =>
      obtain ⟨a, b⟩ := r
      simp only [hc] at h
      rw [Except.ok.injEq, Prod.mk.injEq] at h
      obtain ⟨rfl, rfl⟩ := h
      exact .inl (coerceNoRescue_provenance v a b hc)
    | none =>
      simp only [hc] at h
      cases hsp : rescueSpan raw with
      | none =>
        simp only [hsp] at h
        exact Except.noConfusion h
      | some span =>
        simp only [hsp] at h
        cases hjl : json_loads span with
        | error m =>
          simp only [hjl] at h
          exact Except.noConfusion h
        | ok inner =>
          simp only [hjl] at h
          cases hc2 : coerceNoRescue inner with
          | error e =>
            simp only [hc2] at h
            exact Except.noConfusion h
          | ok o2 =>
            cases o2 with
            | some r2 =>
              obtain ⟨a, b⟩ := r2
              simp only [hc2] at h
              rw [Except.ok.injEq, Prod.mk.injEq] at h
              obtain ⟨rfl, rfl⟩ := h
              exact .inr ⟨span, inner, rfl, hjl,
                coerceNoRescue_provenance inner a b hc2⟩
            | none =>
              simp only [hc2] at h
              exact Except.noConfusion h

/-- Claim C6, counterexample: a response carrying a `human_summary` key next
to an unwrapped `summary` gets a SYNTHESIZED `human_summary` (joined from
`key_points`) that differs from the one present in the response, so
synthesis is not restricted to the case where the field is absent. -/
theorem coerce_synthDespitePresent_cex :
    coerce_llm_json
        (.obj [("human_summary", .str "H"),
               ("summary", .obj [("key_points", .arr [.str "A"])])]) ""
      = .ok (.obj [("human_summary", .str "H"),
                   ("summary", .obj [("key_points", .arr [.str "A"])])], .str "A")
    ∧ dlookup "human_summary"
        [("human_summary", JValue.str "H"),
         ("summary", JValue.obj [("key_points", JValue.arr [.str "A"])])]
        = some (.str "H")
    ∧ JValue.str "A" ≠ JValue.str "H" := by
  refine ⟨rfl, rfl, ?_⟩
  simp

/-- Witness for the amended C6. -/
theorem coerce_machineJsonProvenance_witness :
    coerce_llm_json
        (.obj [("machine_json", JValue.num 5), ("human_summary", JValue.str "S")]) ""
      = .ok (.num 5, .str "S")
    ∧ ((memberVal (.num 5)
          (.obj [("machine_json", JValue.num 5), ("human_summary", JValue.str "S")])
        ∧ hsFromValue
            (.obj [("machine_json", JValue.num 5), ("human_summary", JValue.str "S")])
            (.str "S"))
       ∨ (∃ span inner, rescueSpan "" = some span ∧ json_loads span = .ok inner ∧
            memberVal (.num 5) inner ∧ hsFromValue inner (.str "S"))) :=
  ⟨rfl, coerce_machineJsonProvenance
          (.obj [("machine_json", JValue.num 5), ("human_summary", JValue.str "S")])
          "" (.num 5) (.str "S") rfl⟩

/-- Shape of an inbound interaction callback per the messaging-sink
contract: a JSON object whose `actions` (when present and truthy) is a list
headed by an object, and whose `channel` and `message` values (when present)
are objects. -/
def wf_callback (p : JValue) : Prop :=
  ∃ f, p = JValue.obj f ∧
    (match dlookup "actions" f with
     | none => True
     | some v => truthy v = false ∨ ∃ g rest, v = JValue.arr (JValue.obj g :: rest)) ∧
    (match dlookup "channel" f with
     | none => True
     | some v => ∃ cf, v = JValue.obj cf) ∧
    (match dlookup "message" f with
     | none => True
     | some v => ∃ mf, v = JValue.obj mf)

/-- The action id the handler extracts:
`(payload.get("actions") or [(,)])[0].get("action_id")`, as a total
function (junk payloads give `null`, the shape `wf_callback` rules out). -/
def callback_action_id (p : JValue) : JValue :=
  match p with
  | .obj f =>
    let av := (dlookup "actions" f).getD .null
    let av2 := if truthy av then av else .arr [.obj []]
    match av2 with
    | .arr (JValue.obj g :: _) => (dlookup "action_id" g).getD .null
    | _ => .null
  | _ => .null

/-- Claim C8: an inbound callback (of the sink's callback shape) whose
action id is not `confirm_minutes` triggers no `chat_update` call — the
posted message is left unchanged — and the handler answers the success
response `(ok: True)`. -/
theorem slackInteract_unrecognizedActionNoop (p : JValue)
    (hwf : wf_callback p)
    (hid : callback_action_id p ≠ .str "confirm_minutes") :
    slack_interact p = .ok (okTrue, []) := by
  obtain ⟨f, rfl, ha, hc, hm⟩ := hwf
  have hchannel : ∃ cf2, (dlookup "channel" f).getD (JValue.obj []) = JValue.obj cf2 := by
    rcases hch : dlookup "channel" f with _ | cv
    · exact ⟨[], rfl⟩
    · rw [hch] at hc
      obtain ⟨cf, rfl⟩ := hc
      exact ⟨cf, rfl⟩
  have hmessage : ∃ mf2, (dlookup "message" f).getD (JValue.obj []) = JValue.obj mf2 := by
    rcases hms : dlookup "message" f with _ | mv
    · exact ⟨[], rfl⟩
    · rw [hms] at hm
      obtain ⟨mf, rfl⟩ := hm
      exact ⟨mf, rfl⟩
  have hact2 : ∃ g2,
      pyIndex0 (if truthy ((dlookup "actions" f).getD JValue.null) = true then
                  (dlookup "actions" f).getD JValue.null
                else JValue.arr [JValue.obj []]) = .ok (JValue.obj g2)
      ∧ callback_action_id (JValue.obj f) = (dlookup "action_id" g2).getD JValue.null := by
    rcases hactl : dlookup "actions" f with _ | v
    · exact ⟨[], rfl, by simp [callback_action_id, hactl, truthy]⟩
    · rw [hactl] at ha
      rcases ha with hfalsy | ⟨g, rest, rfl⟩
      · refine ⟨[], ?_, ?_⟩
        · simp [hactl, hfalsy, pyIndex0]
        · simp [callback_action_id, hactl, hfalsy]
      · refine ⟨g, ?_, ?_⟩
        · simp [hactl, truthy, pyIndex0]
        · simp [callback_action_id, hactl, truthy]
  obtain ⟨cf2, hcv⟩ := hchannel
  obtain ⟨mf2, hmv⟩ := hmessage
  obtain ⟨g2, hidx, hcid⟩ := hact2
  rw [hcid] at hid
  unfold slack_interact
  simp only [pyGet, hidx, hcv, hmv]
  generalize (dlookup "action_id" g2).getD JValue.null = aid at hid
  rcases aid with _ | b | n | s | xs | gg
  · rfl
  · rfl
  · rfl
  · by_cases hs : s = "confirm_minutes"
    · subst hs
      exact absurd rfl hid
    · simp [hs]
  · rfl
  · rfl

/-- Witness for C8: a well-formed callback carrying action id `other`. -/
theorem slackInteract_unrecognizedActionNoop_witness :
    wf_callback
      (.obj [("actions", JValue.arr [.obj [("action_id", JValue.str "other")]]),
               ("channel", JValue.obj [("id", JValue.str "C1")]),
               ("message", JValue.obj [("ts", JValue.str "123.45")])])
    ∧ callback_action_id
        (.obj [("actions", JValue.arr [.obj [("action_id", JValue.str "other")]]),
               ("channel", JValue.obj [("id", JValue.str "C1")]),
               ("message", JValue.obj [("ts", JValue.str "123.45")])]) ≠ .str "confirm_minutes"
    ∧ slack_interact
        (.obj [("actions", JValue.arr [.obj [("action_id", JValue.str "other")]]),
               ("channel", JValue.obj [("id", JValue.str "C1")]),
               ("message", JValue.obj [("ts", JValue.str "123.45")])]) = .ok (okTrue, []) := by
  have hwf : wf_callback
      (.obj [("actions", JValue.arr [.obj [("action_id", JValue.str "other")]]),
               ("channel", JValue.obj [("id", JValue.str "C1")]),
               ("message", JValue.obj [("ts", JValue.str "123.45")])]) :=
    ⟨_, rfl, .inr ⟨_, _, rfl⟩, ⟨_, rfl⟩, ⟨_, rfl⟩⟩
  have hid : callback_action_id
      (.obj [("actions", JValue.arr [.obj [("action_id", JValue.str "other")]]),
               ("channel", JValue.obj [("id", JValue.str "C1")]),
               ("message", JValue.obj [("ts", JValue.str "123.45")])]) ≠ .str "confirm_minutes" := by
    intro h
    rw [show callback_action_id
        (.obj [("actions", JValue.arr [.obj [("action_id", JValue.str "other")]]),
               ("channel", JValue.obj [("id", JValue.str "C1")]),
               ("message", JValue.obj [("ts", JValue.str "123.45")])]) = JValue.str "other" from rfl] at h
    injection h with h2
    exact absurd h2 (by decide)
  exact ⟨hwf, hid, slackInteract_unrecognizedActionNoop _ hwf hid⟩
